import Mathlib

/-!
Verification of the veteran-transition-navigator analyzer core.

Shallow embedding of `src/lib/analyzer` (demoProvider.ts, realProvider.ts,
index.ts — its later revision with graceful degradation — and types.ts) plus
the zod schemas. JavaScript strings are modelled as Lean `String`
(`charCodeAt` as the character's code point, which agrees with UTF-16 code
units on the Basic Multilingual Plane; all catalogue data is ASCII), JS
numbers used for salaries are exact integers (`Int`), and the schema-level
`number` fields (`yearsOfService`, `dependents`) are modelled as `ℚ` since
`z.number()` admits non-integers. Fallible operations return `Except`.
-/

set_option maxRecDepth 20000

namespace VTN

/-- JS `ToInt32`: wrap an integer to the signed 32-bit range
`[-2^31, 2^31)`; this is what `x & x` and the result of `<<` perform. -/
def toInt32 (n : Int) : Int :=
  let m := n % 4294967296
  if m < 2147483648 then m else m - 4294967296

/-- Code units of a string as natural numbers (JS `charCodeAt`, BMP). -/
def charCodes (s : String) : List Nat :=
  s.data.map Char.toNat

/-- One iteration of the loop body of `simpleHash` in demoProvider.ts:
`hash = (hash << 5) - hash + char; hash = hash & hash;`.
`hash << 5` wraps `hash * 32` to int32 (the prior value is already an
int32, so JS's `ToInt32` of the left operand is the identity), and
`hash & hash` wraps the whole expression. -/
def hashStep (h : Int) (c : Nat) : Int :=
  toInt32 (toInt32 (h * 32) - h + c)

/-- `simpleHash` from demoProvider.ts: fold the loop body over the
character codes starting from 0, then `Math.abs`. -/
def simpleHash (s : String) : Nat :=
  ((charCodes s).foldl hashStep 0).natAbs

/-- Insert a comma after every three characters, used on the reversed
digit string (the grouping of JS `toLocaleString` for en-US). -/
def group3 : List Char → List Char
  | a :: b :: c :: rest@(_ :: _) => a :: b :: c :: ',' :: group3 rest
  | l => l

/-- JS `Number.prototype.toLocaleString()` on integers: decimal digits
with thousands separators (all salary figures are non-negative). -/
def toLocaleString (n : Int) : String :=
  let digits := (toString n.natAbs).data
  let grouped := (group3 digits.reverse).reverse
  (if n < 0 then "-" else "") ++ String.mk grouped

/-- The template literal `` $x.toLocaleString() - $y.toLocaleString() ``
used for every income-trajectory entry. -/
def fmtRange (lo hi : Int) : String :=
  "$" ++ toLocaleString lo ++ " - $" ++ toLocaleString hi

/-- Does `pat` occur at the start of `l`? (helper for JS `includes`). -/
def startsWithL : List Char → List Char → Bool
  | _, [] => true
  | [], _ :: _ => false
  | a :: as, b :: bs => a == b && startsWithL as bs

/-- Occurrence of `pat` anywhere in `l` (JS `String.prototype.includes`). -/
def occursIn (pat : List Char) : List Char → Bool
  | [] => pat.isEmpty
  | a :: as => startsWithL (a :: as) pat || occursIn pat as

/-- JS `s.includes(sub)`. -/
def containsSub (s sub : String) : Bool :=
  occursIn sub.data s.data

/-- JS `String.prototype.toLowerCase` on one character (ASCII range; the
inputs this model evaluates are ASCII, where JS and this map agree). -/
def toLowerCharJs (c : Char) : Char :=
  if c.toNat ≥ 65 ∧ c.toNat ≤ 90 then Char.ofNat (c.toNat + 32) else c

/-- JS `s.toLowerCase()`. -/
def jsToLower (s : String) : String :=
  ⟨s.data.map toLowerCharJs⟩

/-! ## Data model (types.ts) -/

/-- A roadmap phase (`roadmap` array entries in `CareerPathwaySchema`). -/
structure RoadmapPhase where
  phase : String
  duration : String
  steps : List String
deriving DecidableEq, Repr

/-- A required credential (name/timeline/cost triple). -/
structure Credential where
  name : String
  timeline : String
  cost : String
deriving DecidableEq, Repr

/-- The income trajectory: formatted salary ranges for years 1/3/5. -/
structure IncomeTrajectory where
  year1 : String
  year3 : String
  year5 : String
deriving DecidableEq, Repr

/-- The family-impact block of a pathway. -/
structure FamilyImpact where
  timeCommitment : String
  flexibility : String
  stability : String
  notes : String
deriving DecidableEq, Repr

/-- A career pathway (`CareerPathwaySchema`); `type` is one of the string
tags "fast-income", "balanced", "max-upside". -/
structure CareerPathway where
  type : String
  title : String
  description : String
  incomeTrajectory : IncomeTrajectory
  roadmap : List RoadmapPhase
  requiredCredentials : List Credential
  familyImpact : FamilyImpact
  whyThisPath : String
deriving DecidableEq, Repr

/-- The analysis result (`AnalysisResultSchema`): summary plus pathways. -/
structure AnalysisResult where
  summary : String
  pathways : List CareerPathway
deriving DecidableEq, Repr

/-- A validated veteran profile (`VeteranProfileSchema`). -/
structure VeteranProfile where
  branch : String
  yearsOfService : ℚ
  rank : String
  mos : String
  technicalSkills : List String
  certifications : List String
  leadershipExperience : String
  familyStatus : String
  dependents : ℚ
  spouseEmployment : String
  currentLocation : String
  willingToRelocate : Bool
  preferredLocations : List String
  careerGoals : String
  incomeExpectations : String
  educationInterest : String
  timeline : String
deriving DecidableEq, Repr

/-- One strategy option inside a template (demoProvider.ts
`PathwayOption`). -/
structure PathwayOption where
  title : String
  description : String
  startingSalary : Int
  roadmap : List RoadmapPhase
  credentials : List Credential
  whyThisPath : String
deriving DecidableEq, Repr

/-- A pathway template (demoProvider.ts `PathwayTemplate`). -/
structure PathwayTemplate where
  skillArea : String
  leadershipValue : String
  fastIncome : PathwayOption
  balanced : PathwayOption
  maxUpside : PathwayOption
deriving DecidableEq, Repr

/-! ## Pre-built pathway templates (demoProvider.ts `PATHWAY_TEMPLATES`) -/

/-- Template 1: Combat Arms / Infantry. -/
def template1 : PathwayTemplate :=
  { skillArea := "tactical operations, discipline, and teamwork"
    leadershipValue := "crisis management and team coordination"
    fastIncome :=
      { title := "Security Operations Specialist"
        description :=
          "Immediate-hire positions in corporate security, armed security, or contract security operations."
        startingSalary := 45000
        roadmap :=
          [ { phase := "Month 1-2: Certifications"
              duration := "6-8 weeks"
              steps :=
                [ "Obtain state security guard license"
                , "Complete armed security certification (if desired)"
                , "First Aid/CPR certification"
                , "Apply to corporate security positions" ] }
          , { phase := "Month 3-12: Entry Role"
              duration := "10 months"
              steps :=
                [ "Start as security officer or guard"
                , "Build track record of reliability"
                , "Network with law enforcement and security professionals"
                , "Consider shift supervisor opportunities" ] }
          , { phase := "Year 2-3: Advancement"
              duration := "2 years"
              steps :=
                [ "Move to site supervisor or operations coordinator"
                , "Pursue specialized training (executive protection, cybersecurity awareness)"
                , "Consider federal security roles (TSA, VA Police)" ] } ]
        credentials :=
          [ { name := "State Security License", timeline := "2-4 weeks", cost := "$100 - $400" }
          , { name := "CPR/First Aid Certification", timeline := "1 day", cost := "$50 - $100" } ]
        whyThisPath :=
          "Fastest path to employment with your existing skills. Many companies actively recruit veterans for security roles." }
    balanced :=
      { title := "Law Enforcement Officer"
        description :=
          "Police officer, deputy sheriff, or state trooper combining your military discipline with public service."
        startingSalary := 52000
        roadmap :=
          [ { phase := "Month 1-6: Academy Prep"
              duration := "6 months"
              steps :=
                [ "Research local departments (city, county, state)"
                , "Complete police academy application process"
                , "Physical fitness preparation"
                , "Begin police academy (typically 6 months)" ] }
          , { phase := "Year 1-3: Probationary Officer"
              duration := "2-3 years"
              steps :=
                [ "Complete field training program (3-6 months)"
                , "Serve as patrol officer"
                , "Build community relationships"
                , "Consider specializations (K-9, traffic, investigations)" ] }
          , { phase := "Year 4-5: Specialization"
              duration := "2 years"
              steps :=
                [ "Apply for detective or specialized units"
                , "Pursue additional certifications (SWAT, crisis negotiation)"
                , "Consider supervisory track (sergeant exam)" ] } ]
        credentials :=
          [ { name := "Police Academy", timeline := "5-6 months", cost := "Often paid by department" }
          , { name := "Associate's Degree in Criminal Justice (recommended)"
              timeline := "18-24 months"
              cost := "$0 (GI Bill)" } ]
        whyThisPath :=
          "Leverages your military training and discipline. Strong job security, benefits, and pension. Many departments offer veteran hiring preferences." }
    maxUpside :=
      { title := "Emergency Management Director"
        description :=
          "Leadership role coordinating disaster response, public safety, and crisis management for government or large organizations."
        startingSalary := 65000
        roadmap :=
          [ { phase := "Year 1: Education & Entry"
              duration := "12 months"
              steps :=
                [ "Enroll in Bachelor's in Emergency Management or Public Administration"
                , "Start as emergency management specialist or coordinator"
                , "Get FEMA ICS/NIMS certifications"
                , "Join professional associations (IAEM)" ] }
          , { phase := "Year 2-3: Build Expertise"
              duration := "2 years"
              steps :=
                [ "Complete degree program"
                , "Work on real incident responses"
                , "Obtain Certified Emergency Manager (CEM) credential"
                , "Take on project management responsibilities" ] }
          , { phase := "Year 4-5: Leadership Track"
              duration := "2 years"
              steps :=
                [ "Pursue master's degree (optional but valuable)"
                , "Apply for emergency management manager positions"
                , "Lead multi-agency exercises and responses"
                , "Build regional/national professional network" ] } ]
        credentials :=
          [ { name := "Bachelor's in Emergency Management"
              timeline := "24-36 months"
              cost := "$0 (GI Bill)" }
          , { name := "Certified Emergency Manager (CEM)"
              timeline := "1-2 years experience required"
              cost := "$500 - $1,000" }
          , { name := "FEMA Professional Development Series"
              timeline := "Ongoing"
              cost := "Free" } ]
        whyThisPath :=
          "Your combat experience translates directly to crisis management. High earning potential ($90K-$150K+ with experience). Growing field with strong demand." } }

/-- Template 2: Technical / IT / Communications. -/
def template2 : PathwayTemplate :=
  { skillArea := "technical systems, communications, and troubleshooting"
    leadershipValue := "technical team leadership and problem-solving"
    fastIncome :=
      { title := "IT Help Desk Technician"
        description :=
          "Entry-level IT support role providing technical assistance to users and troubleshooting common issues."
        startingSalary := 42000
        roadmap :=
          [ { phase := "Month 1-3: Certifications"
              duration := "3 months"
              steps :=
                [ "Study for CompTIA A+ certification (self-paced)"
                , "Pass A+ exam"
                , "Update resume highlighting military technical experience"
                , "Apply to help desk positions (aim for 20-30 applications)" ] }
          , { phase := "Month 4-12: First Role"
              duration := "9 months"
              steps :=
                [ "Start as Tier 1 Help Desk Technician"
                , "Learn ticketing systems and enterprise tools"
                , "Build customer service skills"
                , "Study for CompTIA Network+ (evening/weekends)" ] }
          , { phase := "Year 2-3: Advancement"
              duration := "2 years"
              steps :=
                [ "Earn Network+ certification"
                , "Move to Tier 2 support or junior systems admin"
                , "Specialize in area of interest (cloud, networking, security)"
                , "Build home lab for hands-on practice" ] } ]
        credentials :=
          [ { name := "CompTIA A+", timeline := "2-3 months study", cost := "$250 (exam voucher)" }
          , { name := "CompTIA Network+", timeline := "2-3 months study", cost := "$358 (exam voucher)" } ]
        whyThisPath :=
          "Quick entry to IT field with strong demand. Certifications can be earned while job hunting. Remote work opportunities common." }
    balanced :=
      { title := "Cloud Infrastructure Engineer"
        description :=
          "Design and manage cloud-based systems (AWS, Azure, Google Cloud) for organizations migrating to cloud infrastructure."
        startingSalary := 70000
        roadmap :=
          [ { phase := "Month 1-6: Foundation"
              duration := "6 months"
              steps :=
                [ "Choose cloud platform (AWS most in-demand)"
                , "Earn AWS Certified Cloud Practitioner (entry)"
                , "Complete hands-on labs and tutorials"
                , "Apply for junior cloud or DevOps roles" ] }
          , { phase := "Year 1-2: Specialization"
              duration := "18 months"
              steps :=
                [ "Earn AWS Solutions Architect Associate"
                , "Work on real cloud migration projects"
                , "Learn infrastructure-as-code (Terraform, CloudFormation)"
                , "Contribute to open-source projects" ] }
          , { phase := "Year 3-5: Senior Level"
              duration := "3 years"
              steps :=
                [ "Earn AWS Professional level certification"
                , "Move to senior engineer or architect role"
                , "Lead cloud transformation initiatives"
                , "Consider specialization (security, machine learning, containers)" ] } ]
        credentials :=
          [ { name := "AWS Certified Solutions Architect - Associate"
              timeline := "3-4 months study"
              cost := "$150 (exam)" }
          , { name := "AWS Certified Solutions Architect - Professional"
              timeline := "6 months study"
              cost := "$300 (exam)" } ]
        whyThisPath :=
          "Cloud skills are in extremely high demand. Median salary $120K+. Remote work common. Certifications carry significant weight." }
    maxUpside :=
      { title := "Cybersecurity Architect"
        description :=
          "Design and implement security frameworks protecting organizations from cyber threats. High-demand role with six-figure earning potential."
        startingSalary := 85000
        roadmap :=
          [ { phase := "Year 1: Security Foundation"
              duration := "12 months"
              steps :=
                [ "Earn Security+ and CySA+ certifications"
                , "Start in SOC analyst or security engineer role"
                , "Learn SIEM tools (Splunk, ELK Stack)"
                , "Study common attack vectors and defensive techniques" ] }
          , { phase := "Year 2-3: Advanced Skills"
              duration := "2 years"
              steps :=
                [ "Pursue Bachelor's in Cybersecurity (optional, recommended)"
                , "Earn CISSP or CEH certification"
                , "Work on incident response and threat hunting"
                , "Specialize in area (network security, application security, cloud security)" ] }
          , { phase := "Year 4-5: Architecture Level"
              duration := "2 years"
              steps :=
                [ "Obtain SABSA or similar architecture certification"
                , "Move to security architect or senior engineer role"
                , "Design zero-trust architectures and security frameworks"
                , "Lead enterprise security strategy" ] } ]
        credentials :=
          [ { name := "CompTIA Security+", timeline := "2-3 months", cost := "$392 (exam)" }
          , { name := "CISSP (Certified Information Systems Security Professional)"
              timeline := "6-12 months (requires experience)"
              cost := "$749 (exam)" }
          , { name := "Bachelor's in Cybersecurity"
              timeline := "24-36 months"
              cost := "$0 (GI Bill)" } ]
        whyThisPath :=
          "Cybersecurity professionals earn $100K-$200K+. Critical national need = job security. TS clearance from military is huge advantage. Remote work common." } }

/-- Template 3: Logistics / Supply Chain. -/
def template3 : PathwayTemplate :=
  { skillArea := "logistics, supply chain management, and operational planning"
    leadershipValue := "process optimization and resource coordination"
    fastIncome :=
      { title := "Warehouse Operations Supervisor"
        description :=
          "Oversee warehouse operations, inventory management, and team coordination for distribution centers or manufacturing facilities."
        startingSalary := 48000
        roadmap :=
          [ { phase := "Month 1-2: Quick Start"
              duration := "2 months"
              steps :=
                [ "Apply to warehouse supervisor roles at major companies (Amazon, UPS, FedEx, etc.)"
                , "Highlight military logistics and leadership experience"
                , "Obtain forklift certification if needed"
                , "Research local distribution centers and 3PL companies" ] }
          , { phase := "Month 3-12: Build Track Record"
              duration := "10 months"
              steps :=
                [ "Start as warehouse supervisor or shift manager"
                , "Learn WMS (Warehouse Management Systems)"
                , "Implement process improvements"
                , "Document successes (productivity gains, cost savings)" ] }
          , { phase := "Year 2-3: Advancement"
              duration := "2 years"
              steps :=
                [ "Move to operations manager or distribution center manager"
                , "Earn Certified Supply Chain Professional (CSCP) credential"
                , "Consider MBA or supply chain management degree"
                , "Network in supply chain professional associations" ] } ]
        credentials :=
          [ { name := "OSHA Forklift Certification", timeline := "1-2 days", cost := "$50 - $150" }
          , { name := "Certified Supply Chain Professional (CSCP)"
              timeline := "3-6 months study"
              cost := "$1,000 - $1,500" } ]
        whyThisPath :=
          "High demand for logistics professionals. Military logistics experience highly valued. Clear advancement path to six-figure management roles." }
    balanced :=
      { title := "Supply Chain Analyst"
        description :=
          "Analyze supply chain data, optimize procurement processes, and improve efficiency for manufacturing or retail companies."
        startingSalary := 58000
        roadmap :=
          [ { phase := "Month 1-6: Skills & Entry"
              duration := "6 months"
              steps :=
                [ "Learn Excel (advanced functions, pivot tables, Power Query)"
                , "Complete free/low-cost supply chain analytics courses"
                , "Build portfolio with case studies"
                , "Apply for analyst positions at manufacturers, retailers, or consulting firms" ] }
          , { phase := "Year 1-3: Analysis Expertise"
              duration := "2-3 years"
              steps :=
                [ "Master supply chain software (SAP, Oracle, Blue Yonder)"
                , "Learn SQL and basic Python for data analysis"
                , "Earn APICS CSCP or CPIM certification"
                , "Lead process improvement projects" ] }
          , { phase := "Year 4-5: Senior Analyst or Manager"
              duration := "2 years"
              steps :=
                [ "Move to senior analyst or supply chain manager"
                , "Specialize in demand planning, procurement, or logistics"
                , "Consider MBA in Supply Chain Management or Master's in Analytics"
                , "Lead strategic initiatives (network optimization, supplier consolidation)" ] } ]
        credentials :=
          [ { name := "APICS CSCP (Certified Supply Chain Professional)"
              timeline := "4-6 months study"
              cost := "$1,200 - $1,800" }
          , { name := "Advanced Excel & SQL (online courses)"
              timeline := "2-3 months"
              cost := "$200 - $500" } ]
        whyThisPath :=
          "Growing field with strong demand. Analytical skills transferable across industries. Path to six-figure supply chain leadership roles." }
    maxUpside :=
      { title := "Director of Supply Chain Operations"
        description :=
          "Executive-level role overseeing end-to-end supply chain strategy, vendor relationships, and global logistics for large organizations."
        startingSalary := 95000
        roadmap :=
          [ { phase := "Year 1: Foundation & MBA"
              duration := "12 months"
              steps :=
                [ "Enroll in MBA program (supply chain or operations focus)"
                , "Start as supply chain manager or senior analyst"
                , "Join supply chain professional associations (CSCMP, APICS)"
                , "Build network with industry leaders" ] }
          , { phase := "Year 2-3: Strategic Experience"
              duration := "2 years"
              steps :=
                [ "Complete MBA program"
                , "Lead cross-functional supply chain projects"
                , "Earn CPIM or CSCP certification"
                , "Gain experience in multiple supply chain areas (procurement, logistics, planning)" ] }
          , { phase := "Year 4-5: Director Level"
              duration := "2 years"
              steps :=
                [ "Move to director of supply chain or VP of operations"
                , "Oversee multi-million dollar budgets"
                , "Drive digital transformation initiatives"
                , "Mentor and develop supply chain teams" ] } ]
        credentials :=
          [ { name := "MBA (Supply Chain/Operations Management)"
              timeline := "18-24 months"
              cost := "$0 - $20,000 (GI Bill + scholarships)" }
          , { name := "APICS CPIM (Certified in Production and Inventory Management)"
              timeline := "6-12 months"
              cost := "$1,500 - $2,500" } ]
        whyThisPath :=
          "Supply chain directors earn $130K-$250K+. Critical strategic role in organizations. Your military logistics background is exceptional preparation." } }

/-- Template 4: Medical / Healthcare. -/
def template4 : PathwayTemplate :=
  { skillArea := "medical care, emergency response, and patient care"
    leadershipValue := "high-stress decision making and team coordination"
    fastIncome :=
      { title := "Emergency Medical Technician (EMT) / Paramedic"
        description :=
          "Provide emergency medical care in ambulances, hospitals, or fire departments. Fast certification path with immediate job opportunities."
        startingSalary := 38000
        roadmap :=
          [ { phase := "Month 1-4: EMT Certification"
              duration := "4 months"
              steps :=
                [ "Enroll in EMT-Basic course (evenings/weekends available)"
                , "Complete 120-150 hours of coursework"
                , "Pass NREMT (National Registry) exam"
                , "Apply for ambulance or fire department positions" ] }
          , { phase := "Month 5-18: Build Experience"
              duration := "14 months"
              steps :=
                [ "Work as EMT-Basic"
                , "Gain patient contact hours"
                , "Consider fire department EMT roles (higher pay)"
                , "Enroll in Paramedic program (6-12 months)" ] }
          , { phase := "Year 2-5: Paramedic & Beyond"
              duration := "3-4 years"
              steps :=
                [ "Complete Paramedic certification"
                , "Work as full Paramedic ($55K-$70K)"
                , "Consider specializations (flight medic, tactical medic)"
                , "Option to bridge to nursing with additional education" ] } ]
        credentials :=
          [ { name := "EMT-Basic Certification", timeline := "3-4 months", cost := "$1,000 - $2,000" }
          , { name := "Paramedic Certification"
              timeline := "6-12 months"
              cost := "$5,000 - $10,000 (financial aid available)" } ]
        whyThisPath :=
          "Military medic experience highly valued. Fast entry to healthcare field. Can work while pursuing further education (RN, PA)." }
    balanced :=
      { title := "Registered Nurse (RN)"
        description :=
          "Provide direct patient care in hospitals, clinics, or specialty care settings. High demand, excellent job security, and strong earning potential."
        startingSalary := 65000
        roadmap :=
          [ { phase := "Year 1-2: Nursing Degree"
              duration := "18-24 months"
              steps :=
                [ "Enroll in accelerated BSN program or ADN program"
                , "Complete clinical rotations"
                , "Study for NCLEX-RN exam"
                , "Apply for new graduate RN positions" ] }
          , { phase := "Year 2-4: Clinical Experience"
              duration := "2-3 years"
              steps :=
                [ "Start in med-surg, ER, or ICU"
                , "Complete nurse residency program"
                , "Gain 2+ years bedside experience"
                , "Consider specialty certifications (CCRN, CEN)" ] }
          , { phase := "Year 5: Specialization or Leadership"
              duration := "Ongoing"
              steps :=
                [ "Specialize in high-demand area (ICU, ER, OR)"
                , "Consider travel nursing ($90K-$120K+)"
                , "Pursue leadership track (charge nurse, nurse manager)"
                , "Option for advanced practice (NP, CRNA with MSN)" ] } ]
        credentials :=
          [ { name := "BSN (Bachelor of Science in Nursing)"
              timeline := "18-24 months (accelerated)"
              cost := "$0 (GI Bill)" }
          , { name := "NCLEX-RN Exam", timeline := "2-3 months study", cost := "$200 (exam fee)" } ]
        whyThisPath :=
          "Nursing is one of the most in-demand careers nationwide. Median RN salary $77K. Travel nursing can earn $100K+. Excellent work-life balance options." }
    maxUpside :=
      { title := "Physician Assistant (PA)"
        description :=
          "Practice medicine under physician supervision. Diagnose, treat, and prescribe medications. Exceptional earning potential with strong work-life balance."
        startingSalary := 100000
        roadmap :=
          [ { phase := "Year 1: Prerequisites & PCE"
              duration := "12 months"
              steps :=
                [ "Complete any missing prerequisites (anatomy, physiology, etc.)"
                , "Gain Patient Care Experience (PCE) hours if needed"
                , "Study for GRE if required"
                , "Apply to PA programs (highly competitive)" ] }
          , { phase := "Year 2-3: PA School"
              duration := "24-27 months"
              steps :=
                [ "Complete didactic year (classroom)"
                , "Complete clinical rotations (10-12 specialties)"
                , "Graduate with Master of Physician Assistant Studies"
                , "Pass PANCE (PA National Certifying Exam)" ] }
          , { phase := "Year 4-5: Practice & Specialization"
              duration := "2+ years"
              steps :=
                [ "Start in primary care or specialty (ER, surgery, orthopedics)"
                , "Build clinical competency"
                , "Consider high-paying specialties (dermatology, surgery, ER)"
                , "Option to start own practice or consulting" ] } ]
        credentials :=
          [ { name := "Master's in Physician Assistant Studies"
              timeline := "24-27 months"
              cost := "$0 - $30,000 (GI Bill + loans)" }
          , { name := "PANCE (PA National Certifying Exam)"
              timeline := "After graduation"
              cost := "$550 (exam)" } ]
        whyThisPath :=
          "PA median salary $121K. Work-life balance superior to physicians. Military medic experience strengthens application. Growing field with 31% job growth projected." } }

/-- Template 5: Aviation / Maintenance. -/
def template5 : PathwayTemplate :=
  { skillArea := "mechanical systems, precision maintenance, and technical operations"
    leadershipValue := "safety compliance and quality assurance"
    fastIncome :=
      { title := "Aircraft Maintenance Technician"
        description :=
          "Inspect, maintain, and repair aircraft for airlines, cargo companies, or maintenance facilities. Military aviation experience highly valued."
        startingSalary := 52000
        roadmap :=
          [ { phase := "Month 1-18: A&P License"
              duration := "18 months"
              steps :=
                [ "Enroll in FAA-approved A&P (Airframe & Powerplant) school"
                , "Complete 1,900 hours of training (can be accelerated)"
                , "Pass FAA written, oral, and practical exams"
                , "Apply to airlines, MROs, or cargo companies" ] }
          , { phase := "Year 2-3: Build Experience"
              duration := "2 years"
              steps :=
                [ "Start as A&P mechanic"
                , "Learn specific aircraft types (Boeing, Airbus)"
                , "Work toward inspection authorization (IA)"
                , "Consider specializations (avionics, engines, structures)" ] }
          , { phase := "Year 4-5: Senior Mechanic or Inspector"
              duration := "2+ years"
              steps :=
                [ "Move to lead mechanic or inspector role"
                , "Earn $70K-$90K+ with overtime"
                , "Consider supervisory track or specialized roles"
                , "Travel opportunities with airlines or contractors" ] } ]
        credentials :=
          [ { name := "A&P (Airframe & Powerplant) License"
              timeline := "12-24 months"
              cost := "$15,000 - $40,000 (VA approved programs)" }
          , { name := "FCC License (for avionics)", timeline := "1-2 months", cost := "$60" } ]
        whyThisPath :=
          "Military aviation mechanics can often fast-track A&P. Airline jobs offer excellent benefits and profit sharing. Overtime can push total comp to $80K-$100K+." }
    balanced :=
      { title := "Commercial Pilot"
        description :=
          "Fly cargo, charter, or airline aircraft. Transition military flight hours to civilian aviation career."
        startingSalary := 60000
        roadmap :=
          [ { phase := "Month 1-12: Civilian Ratings"
              duration := "12 months"
              steps :=
                [ "Convert military flight hours to civilian credentials"
                , "Obtain Commercial Pilot License and Instrument Rating"
                , "Build multi-engine time if needed"
                , "Apply to regional airlines or cargo operators" ] }
          , { phase := "Year 2-5: Regional Airline or Cargo"
              duration := "3-4 years"
              steps :=
                [ "Fly for regional airline or cargo company"
                , "Build turbine multi-engine hours (1,500+ for ATP)"
                , "Network within aviation industry"
                , "Apply to major airlines when eligible" ] }
          , { phase := "Year 6+: Major Airline"
              duration := "Career"
              steps :=
                [ "Transition to major airline (United, Delta, American, FedEx, UPS)"
                , "Captain upgrade after 5-10 years"
                , "Earn $200K-$400K+ as senior captain"
                , "Exceptional benefits and retirement" ] } ]
        credentials :=
          [ { name := "Commercial Pilot License + Instrument Rating"
              timeline := "6-12 months (military conversion)"
              cost := "$5,000 - $15,000" }
          , { name := "Airline Transport Pilot (ATP)"
              timeline := "After 1,500 flight hours"
              cost := "$5,000 - $7,000" } ]
        whyThisPath :=
          "Military pilots have huge advantage. Pilot shortage = strong demand. Senior airline captains earn $300K-$400K+. Exceptional job security and benefits." }
    maxUpside :=
      { title := "Aviation Safety Inspector (FAA) / Aviation Manager"
        description :=
          "Oversee aviation safety compliance, lead flight operations, or manage airline/airport operations."
        startingSalary := 75000
        roadmap :=
          [ { phase := "Year 1-2: Build Civilian Credentials"
              duration := "2 years"
              steps :=
                [ "Obtain necessary FAA licenses (A&P, Commercial Pilot, etc.)"
                , "Work in aviation industry (maintenance, flight ops, or safety)"
                , "Consider Bachelor's in Aviation Management"
                , "Network with FAA and aviation safety professionals" ] }
          , { phase := "Year 3-5: Safety or Management Role"
              duration := "3 years"
              steps :=
                [ "Apply for FAA Aviation Safety Inspector position"
                , "OR: Move to airline safety, quality, or operations management"
                , "Lead safety audits, investigations, or compliance programs"
                , "Earn advanced certifications (SMS, aviation safety)" ] }
          , { phase := "Year 6+: Senior Leadership"
              duration := "Career"
              steps :=
                [ "Progress to senior inspector, principal inspector, or director level"
                , "Oversee multi-location operations or large safety programs"
                , "FAA inspectors earn $100K-$140K with federal benefits"
                , "Aviation directors earn $120K-$200K+" ] } ]
        credentials :=
          [ { name := "Bachelor's in Aviation Management or Safety"
              timeline := "24-36 months"
              cost := "$0 (GI Bill)" }
          , { name := "FAA Safety Management System (SMS) Training"
              timeline := "3-6 months"
              cost := "$1,000 - $3,000" } ]
        whyThisPath :=
          "FAA inspector positions offer federal benefits, job security, and excellent work-life balance. Aviation directors at airlines earn $150K-$250K+." } }

/-- `PATHWAY_TEMPLATES` from demoProvider.ts: the 5-entry catalogue. -/
def PATHWAY_TEMPLATES : List PathwayTemplate :=
  [template1, template2, template3, template4, template5]

/-! ## Demo Mode provider (demoProvider.ts) -/

/-- JS number-to-string as used in the summary template literal; profile
numbers reaching it are integral in every scenario evaluated here, where
JS decimal rendering and `Rat` rendering agree. -/
def jsNumberToString (q : ℚ) : String :=
  if q.den = 1 then toString q.num else toString q

/-- The hash input of `analyzeDemoMode`:
`profile.mos + profile.branch + profile.technicalSkills.join('')`. -/
def hashInputOf (profile : VeteranProfile) : String :=
  profile.mos ++ profile.branch ++ String.join profile.technicalSkills

/-- `hash % PATHWAY_TEMPLATES.length` on the non-negative hash. -/
def templateIndexOf (profile : VeteranProfile) : Nat :=
  simpleHash (hashInputOf profile) % PATHWAY_TEMPLATES.length

/-- Placeholder used only as the `getD` default when indexing the
catalogue; never reached since the index is always in range
(`templateIndexOf_lt`). -/
def emptyOption : PathwayOption :=
  { title := "", description := "", startingSalary := 0
    roadmap := [], credentials := [], whyThisPath := "" }

/-- Placeholder template for the out-of-range default (never reached). -/
def emptyTemplate : PathwayTemplate :=
  { skillArea := "", leadershipValue := ""
    fastIncome := emptyOption, balanced := emptyOption, maxUpside := emptyOption }

/-- `PATHWAY_TEMPLATES[templateIndex]` of `analyzeDemoMode`. -/
def selectedTemplate (profile : VeteranProfile) : PathwayTemplate :=
  PATHWAY_TEMPLATES.getD (templateIndexOf profile) emptyTemplate

/-- `hasHighEducationInterest` of `analyzeDemoMode`:
`educationInterest.toLowerCase().includes('bachelor') ||
 educationInterest.toLowerCase().includes('master')`. -/
def hasHighEducationInterest (profile : VeteranProfile) : Bool :=
  containsSub (jsToLower profile.educationInterest) "bachelor" ||
    containsSub (jsToLower profile.educationInterest) "master"

/-- `generateSummary` from demoProvider.ts (template literal). -/
def generateSummary (profile : VeteranProfile) (template : PathwayTemplate) : String :=
  "Based on your " ++ jsNumberToString profile.yearsOfService ++
    " years of service as " ++ profile.rank ++ " in the " ++ profile.branch ++
    " (MOS: " ++ profile.mos ++ "), you have strong " ++ template.skillArea ++
    " skills that translate well to civilian careers. Your " ++
    jsToLower profile.leadershipExperience ++
    " positions you well for roles requiring " ++ template.leadershipValue ++ ". " ++
    (if profile.willingToRelocate then
      "Your flexibility to relocate opens up opportunities in high-demand markets."
    else
      "Focusing on opportunities in " ++ profile.currentLocation ++ " and surrounding areas.")

/-- The `baseIncome` of `generateFastIncome`:
`template.fastIncome.startingSalary + (willingToRelocate ? 15000 : 0)`. -/
def fastIncomeBaseIncome (template : PathwayTemplate) (willingToRelocate : Bool) : Int :=
  template.fastIncome.startingSalary + (if willingToRelocate then 15000 else 0)

/-- `generateFastIncome` from demoProvider.ts. -/
def generateFastIncome (_profile : VeteranProfile) (template : PathwayTemplate)
    (willingToRelocate : Bool) : CareerPathway :=
  let baseIncome := fastIncomeBaseIncome template willingToRelocate
  { type := "fast-income"
    title := template.fastIncome.title
    description := template.fastIncome.description
    incomeTrajectory :=
      { year1 := fmtRange baseIncome (baseIncome + 10000)
        year3 := fmtRange (baseIncome + 15000) (baseIncome + 25000)
        year5 := fmtRange (baseIncome + 30000) (baseIncome + 45000) }
    roadmap := template.fastIncome.roadmap
    requiredCredentials := template.fastIncome.credentials
    familyImpact :=
      { timeCommitment := "Low (40-45 hrs/week)"
        flexibility := "High - stable schedule"
        stability := "High - immediate employment"
        notes := "Ideal for veterans needing quick income with family responsibilities." }
    whyThisPath := template.fastIncome.whyThisPath }

/-- The synthetic credential appended by `generateBalanced` when the
education bonus applies. -/
def bonusCredential : Credential :=
  { name := "Bachelor's Degree (optional accelerated program)"
    timeline := "18-24 months"
    cost := "$5,000 - $15,000 (post-GI Bill)" }

/-- `generateBalanced` from demoProvider.ts. -/
def generateBalanced (_profile : VeteranProfile) (template : PathwayTemplate)
    (hasHighEducationInterest : Bool) : CareerPathway :=
  let educationBonus : Int := if hasHighEducationInterest then 10000 else 0
  let baseIncome := template.balanced.startingSalary + educationBonus
  { type := "balanced"
    title := template.balanced.title
    description := template.balanced.description
    incomeTrajectory :=
      { year1 := fmtRange baseIncome (baseIncome + 12000)
        year3 := fmtRange (baseIncome + 20000) (baseIncome + 35000)
        year5 := fmtRange (baseIncome + 45000) (baseIncome + 65000) }
    roadmap := template.balanced.roadmap
    requiredCredentials :=
      if hasHighEducationInterest then
        template.balanced.credentials ++ [bonusCredential]
      else
        template.balanced.credentials
    familyImpact :=
      { timeCommitment := "Moderate (45-50 hrs/week + some studying)"
        flexibility := "Moderate - some evening/weekend flexibility"
        stability := "Growing - increasing job security over time"
        notes :=
          if hasHighEducationInterest then
            "Combining work with part-time education requires time management."
          else
            "Balanced approach with steady progression." }
    whyThisPath := template.balanced.whyThisPath }

/-- The `experienceBonus` of `generateMaxUpside`:
`yearsOfService >= 8 ? 15000 : yearsOfService >= 4 ? 8000 : 0`. -/
def experienceBonusOf (yearsOfService : ℚ) : Int :=
  if 8 ≤ yearsOfService then 15000 else if 4 ≤ yearsOfService then 8000 else 0

/-- `generateMaxUpside` from demoProvider.ts (the
`hasHighEducationInterest` argument is passed but unused, as in the
source). -/
def generateMaxUpside (_profile : VeteranProfile) (template : PathwayTemplate)
    (_hasHighEducationInterest : Bool) (yearsOfService : ℚ) : CareerPathway :=
  let baseIncome := template.maxUpside.startingSalary + experienceBonusOf yearsOfService
  { type := "max-upside"
    title := template.maxUpside.title
    description := template.maxUpside.description
    incomeTrajectory :=
      { year1 := fmtRange baseIncome (baseIncome + 15000)
        year3 := fmtRange (baseIncome + 35000) (baseIncome + 60000)
        year5 := fmtRange (baseIncome + 70000) (baseIncome + 110000) }
    roadmap := template.maxUpside.roadmap
    requiredCredentials := template.maxUpside.credentials
    familyImpact :=
      { timeCommitment := "High (50-60 hrs/week + education)"
        flexibility := "Low initially - requires significant time investment"
        stability := "Moderate initially, High long-term"
        notes := "Requires upfront investment in education/training. Best for those with family support and financial runway." }
    whyThisPath := template.maxUpside.whyThisPath }

/-- `analyzeDemoMode` from demoProvider.ts (pure: the `async` wrapper
performs no suspension). -/
def analyzeDemoMode (profile : VeteranProfile) : AnalysisResult :=
  let template := selectedTemplate profile
  { summary := generateSummary profile template
    pathways :=
      [ generateFastIncome profile template profile.willingToRelocate
      , generateBalanced profile template (hasHighEducationInterest profile)
      , generateMaxUpside profile template (hasHighEducationInterest profile)
          profile.yearsOfService ] }

/-! ## Provider selection / fallback controller (index.ts, revision with
graceful degradation) -/

/-- A JavaScript thrown value as discriminated by
`error instanceof Error`: either an `Error` object carrying `message`
and `name`, or any other thrown value. -/
inductive JsThrown where
  | errorObj (message name : String)
  | nonError
deriving DecidableEq, Repr

/-- Outcome of the `analyzeRealMode(profile)` call as observed by the
fallback controller: resolves with a (schema-validated) result or
rejects with a thrown value. -/
inductive RemoteOutcome where
  | ok (result : AnalysisResult)
  | thrown (e : JsThrown)
deriving DecidableEq, Repr

/-- One `logger.warn(message, context)` record with the two context
fields written by the fallback controller. -/
structure LogWarning where
  message : String
  error : String
  errorType : String
deriving DecidableEq, Repr

/-- `analyzeProfile` from index.ts, with the environment-dependent
`Boolean(process.env.ANTHROPIC_API_KEY)` and the remote call's outcome
made explicit; returns the result together with the warnings logged.
Modelled so that no exception escapes, as in the source, where the
`catch` absorbs every thrown value. -/
def analyzeProfile (hasApiKey : Bool) (remote : RemoteOutcome)
    (profile : VeteranProfile) : AnalysisResult × List LogWarning :=
  if hasApiKey then
    match remote with
    | .ok result => (result, [])
    | .thrown e =>
        (analyzeDemoMode profile,
          [{ message := "Real mode failed, falling back to demo mode"
             error := match e with
               | .errorObj m _ => m
               | .nonError => "Unknown error"
             errorType := match e with
               | .errorObj _ n => n
               | .nonError => "Unknown" }])
  else
    (analyzeDemoMode profile, [])

/-! ## Raw JSON values and the zod validators (types.ts) -/

/-- A JSON-like runtime value, the input shape of `schema.parse`. -/
inductive JVal where
  | jnull
  | jbool (b : Bool)
  | jnum (q : ℚ)
  | jstr (s : String)
  | jarr (elems : List JVal)
  | jobj (fields : List (String × JVal))
deriving BEq, Repr

/-- Property lookup on an object value. -/
def getField (o : List (String × JVal)) (k : String) : Option JVal :=
  (o.find? (fun kv => kv.1 == k)).map (fun kv => kv.2)

/-- The issues carried by a validation outcome (empty for success). -/
def errsOf {α : Type} : Except (List String) α → List String
  | .ok _ => []
  | .error e => e

/-- `z.string().min(1, msg)` on an optional property of `field`. -/
def parseNonEmptyString (field msg : String) : Option JVal → Except (List String) String
  | none => .error [field ++ ": Required"]
  | some (.jstr s) => if s = "" then .error [field ++ ": " ++ msg] else .ok s
  | some _ => .error [field ++ ": Expected string"]

/-- `z.string()` (no minimum length) on an optional property. -/
def parseAnyString (field : String) : Option JVal → Except (List String) String
  | none => .error [field ++ ": Required"]
  | some (.jstr s) => .ok s
  | some _ => .error [field ++ ": Expected string"]

/-- `z.number().min(0, msg)` on an optional property. -/
def parseMinZeroNumber (field msg : String) : Option JVal → Except (List String) ℚ
  | none => .error [field ++ ": Required"]
  | some (.jnum q) => if q < 0 then .error [field ++ ": " ++ msg] else .ok q
  | some _ => .error [field ++ ": Expected number"]

/-- `z.boolean()` on an optional property (strict: only booleans pass). -/
def parseBoolean (field : String) : Option JVal → Except (List String) Bool
  | none => .error [field ++ ": Required"]
  | some (.jbool b) => .ok b
  | some _ => .error [field ++ ": Expected boolean"]

/-- Elementwise `z.string()` over an array body, reporting every
non-string element with its index, as zod does. -/
def parseStringElems (field : String) : Nat → List JVal → Except (List String) (List String)
  | _, [] => .ok []
  | i, .jstr s :: rest =>
      match parseStringElems field (i + 1) rest with
      | .ok ss => .ok (s :: ss)
      | .error e => .error e
  | i, _ :: rest =>
      match parseStringElems field (i + 1) rest with
      | .ok _ => .error [field ++ "." ++ toString i ++ ": Expected string"]
      | .error e => .error ((field ++ "." ++ toString i ++ ": Expected string") :: e)

/-- `z.array(z.string())` on an optional property: the property is
required (the schema declares no default), and must be an array of
strings. -/
def parseStringArray (field : String) : Option JVal → Except (List String) (List String)
  | none => .error [field ++ ": Required"]
  | some (.jarr xs) => parseStringElems field 0 xs
  | some _ => .error [field ++ ": Expected array"]

/-- The per-field issue lists of `VeteranProfileSchema` in declaration
order (zod collects the issues of every field, not only the first). -/
def profileFieldIssues (o : List (String × JVal)) : List (List String) :=
  [ errsOf (parseNonEmptyString "branch" "Branch is required" (getField o "branch"))
  , errsOf (parseMinZeroNumber "yearsOfService" "Years of service must be positive"
      (getField o "yearsOfService"))
  , errsOf (parseNonEmptyString "rank" "Rank is required" (getField o "rank"))
  , errsOf (parseNonEmptyString "mos" "MOS is required" (getField o "mos"))
  , errsOf (parseStringArray "technicalSkills" (getField o "technicalSkills"))
  , errsOf (parseStringArray "certifications" (getField o "certifications"))
  , errsOf (parseAnyString "leadershipExperience" (getField o "leadershipExperience"))
  , errsOf (parseNonEmptyString "familyStatus" "Family status is required"
      (getField o "familyStatus"))
  , errsOf (parseMinZeroNumber "dependents" "Number must be greater than or equal to 0"
      (getField o "dependents"))
  , errsOf (parseAnyString "spouseEmployment" (getField o "spouseEmployment"))
  , errsOf (parseNonEmptyString "currentLocation" "Current location is required"
      (getField o "currentLocation"))
  , errsOf (parseBoolean "willingToRelocate" (getField o "willingToRelocate"))
  , errsOf (parseStringArray "preferredLocations" (getField o "preferredLocations"))
  , errsOf (parseNonEmptyString "careerGoals" "Career goals are required"
      (getField o "careerGoals"))
  , errsOf (parseNonEmptyString "incomeExpectations" "Income expectations are required"
      (getField o "incomeExpectations"))
  , errsOf (parseNonEmptyString "educationInterest" "Education interest is required"
      (getField o "educationInterest"))
  , errsOf (parseNonEmptyString "timeline" "Timeline is required" (getField o "timeline")) ]

/-- `VeteranProfileSchema.parse` from types.ts: build the validated
profile when every field validates, otherwise fail with the issues of
every offending field. -/
def veteranProfileParse (j : JVal) : Except (List String) VeteranProfile :=
  match j with
  | .jobj o =>
      match
        parseNonEmptyString "branch" "Branch is required" (getField o "branch"),
        parseMinZeroNumber "yearsOfService" "Years of service must be positive"
          (getField o "yearsOfService"),
        parseNonEmptyString "rank" "Rank is required" (getField o "rank"),
        parseNonEmptyString "mos" "MOS is required" (getField o "mos"),
        parseStringArray "technicalSkills" (getField o "technicalSkills"),
        parseStringArray "certifications" (getField o "certifications"),
        parseAnyString "leadershipExperience" (getField o "leadershipExperience"),
        parseNonEmptyString "familyStatus" "Family status is required"
          (getField o "familyStatus"),
        parseMinZeroNumber "dependents" "Number must be greater than or equal to 0"
          (getField o "dependents"),
        parseAnyString "spouseEmployment" (getField o "spouseEmployment"),
        parseNonEmptyString "currentLocation" "Current location is required"
          (getField o "currentLocation"),
        parseBoolean "willingToRelocate" (getField o "willingToRelocate"),
        parseStringArray "preferredLocations" (getField o "preferredLocations"),
        parseNonEmptyString "careerGoals" "Career goals are required"
          (getField o "careerGoals"),
        parseNonEmptyString "incomeExpectations" "Income expectations are required"
          (getField o "incomeExpectations"),
        parseNonEmptyString "educationInterest" "Education interest is required"
          (getField o "educationInterest"),
        parseNonEmptyString "timeline" "Timeline is required" (getField o "timeline")
      with
      | .ok branch, .ok yearsOfService, .ok rank, .ok mos, .ok technicalSkills,
        .ok certifications, .ok leadershipExperience, .ok familyStatus, .ok dependents,
        .ok spouseEmployment, .ok currentLocation, .ok willingToRelocate,
        .ok preferredLocations, .ok careerGoals, .ok incomeExpectations,
        .ok educationInterest, .ok timeline =>
          .ok { branch, yearsOfService, rank, mos, technicalSkills, certifications,
                leadershipExperience, familyStatus, dependents, spouseEmployment,
                currentLocation, willingToRelocate, preferredLocations, careerGoals,
                incomeExpectations, educationInterest, timeline }
      | _, _, _, _, _, _, _, _, _, _, _, _, _, _, _, _, _ =>
          .error (profileFieldIssues o).flatten
  | _ => .error ["Expected object"]

/-- Collect a validator over the elements of an array, gathering the
issues of every failing element (zod behaviour). -/
def collectMapE {α β : Type} (f : α → Except (List String) β) :
    List α → Except (List String) (List β)
  | [] => .ok []
  | x :: xs =>
      match f x, collectMapE f xs with
      | .ok b, .ok bs => .ok (b :: bs)
      | .error e, .ok _ => .error e
      | .ok _, .error es => .error es
      | .error e, .error es => .error (e ++ es)

/-- `z.enum(['fast-income', 'balanced', 'max-upside'])`. -/
def parseEnumType : Option JVal → Except (List String) String
  | none => .error ["type: Required"]
  | some (.jstr s) =>
      if s = "fast-income" || s = "balanced" || s = "max-upside" then .ok s
      else .error ["type: Invalid enum value"]
  | some _ => .error ["type: Expected string"]

/-- The `incomeTrajectory` object schema. -/
def parseIncomeTrajectory : Option JVal → Except (List String) IncomeTrajectory
  | none => .error ["incomeTrajectory: Required"]
  | some (.jobj o) =>
      match parseAnyString "year1" (getField o "year1"),
        parseAnyString "year3" (getField o "year3"),
        parseAnyString "year5" (getField o "year5") with
      | .ok year1, .ok year3, .ok year5 => .ok { year1, year3, year5 }
      | a, b, c => .error (errsOf a ++ errsOf b ++ errsOf c)
  | some _ => .error ["incomeTrajectory: Expected object"]

/-- The `familyImpact` object schema. -/
def parseFamilyImpact : Option JVal → Except (List String) FamilyImpact
  | none => .error ["familyImpact: Required"]
  | some (.jobj o) =>
      match parseAnyString "timeCommitment" (getField o "timeCommitment"),
        parseAnyString "flexibility" (getField o "flexibility"),
        parseAnyString "stability" (getField o "stability"),
        parseAnyString "notes" (getField o "notes") with
      | .ok timeCommitment, .ok flexibility, .ok stability, .ok notes =>
          .ok { timeCommitment, flexibility, stability, notes }
      | a, b, c, d => .error (errsOf a ++ errsOf b ++ errsOf c ++ errsOf d)
  | some _ => .error ["familyImpact: Expected object"]

/-- A `roadmap` phase object schema. -/
def parseRoadmapPhase : JVal → Except (List String) RoadmapPhase
  | .jobj o =>
      match parseAnyString "phase" (getField o "phase"),
        parseAnyString "duration" (getField o "duration"),
        parseStringArray "steps" (getField o "steps") with
      | .ok phase, .ok duration, .ok steps => .ok { phase, duration, steps }
      | a, b, c => .error (errsOf a ++ errsOf b ++ errsOf c)
  | _ => .error ["roadmap: Expected object"]

/-- A `requiredCredentials` entry object schema. -/
def parseCredentialObj : JVal → Except (List String) Credential
  | .jobj o =>
      match parseAnyString "name" (getField o "name"),
        parseAnyString "timeline" (getField o "timeline"),
        parseAnyString "cost" (getField o "cost") with
      | .ok name, .ok timeline, .ok cost => .ok { name, timeline, cost }
      | a, b, c => .error (errsOf a ++ errsOf b ++ errsOf c)
  | _ => .error ["requiredCredentials: Expected object"]

/-- `roadmap`: a required array of phase objects. -/
def parseRoadmap : Option JVal → Except (List String) (List RoadmapPhase)
  | none => .error ["roadmap: Required"]
  | some (.jarr xs) => collectMapE parseRoadmapPhase xs
  | some _ => .error ["roadmap: Expected array"]

/-- `requiredCredentials`: a required array of credential objects. -/
def parseCredentials : Option JVal → Except (List String) (List Credential)
  | none => .error ["requiredCredentials: Required"]
  | some (.jarr xs) => collectMapE parseCredentialObj xs
  | some _ => .error ["requiredCredentials: Expected array"]

/-- `CareerPathwaySchema.parse`: every sub-object must be present and
well-formed; the `type` tag must belong to the three-value enum. -/
def careerPathwayParse : JVal → Except (List String) CareerPathway
  | .jobj o =>
      match parseEnumType (getField o "type"),
        parseAnyString "title" (getField o "title"),
        parseAnyString "description" (getField o "description"),
        parseIncomeTrajectory (getField o "incomeTrajectory"),
        parseRoadmap (getField o "roadmap"),
        parseCredentials (getField o "requiredCredentials"),
        parseFamilyImpact (getField o "familyImpact"),
        parseAnyString "whyThisPath" (getField o "whyThisPath") with
      | .ok type, .ok title, .ok description, .ok incomeTrajectory, .ok roadmap,
        .ok requiredCredentials, .ok familyImpact, .ok whyThisPath =>
          .ok { type, title, description, incomeTrajectory, roadmap,
                requiredCredentials, familyImpact, whyThisPath }
      | a, b, c, d, e, f, g, h =>
          .error (errsOf a ++ errsOf b ++ errsOf c ++ errsOf d ++ errsOf e ++
            errsOf f ++ errsOf g ++ errsOf h)
  | _ => .error ["pathways: Expected object"]

/-- The `pathways` property: `z.array(CareerPathwaySchema).length(3,
'Must have exactly 3 pathways')` — note that the schema checks the length
and each element, but nothing about distinctness of the `type` tags. -/
def parsePathways : Option JVal → Except (List String) (List CareerPathway)
  | none => .error ["pathways: Required"]
  | some (.jarr xs) =>
      match collectMapE careerPathwayParse xs with
      | .ok ps =>
          if ps.length = 3 then .ok ps
          else .error ["pathways: Must have exactly 3 pathways"]
      | .error e =>
          if xs.length = 3 then .error e
          else .error (e ++ ["pathways: Must have exactly 3 pathways"])
  | some _ => .error ["pathways: Expected array"]

/-- `AnalysisResultSchema.parse` from types.ts. -/
def analysisResultParse (j : JVal) : Except (List String) AnalysisResult :=
  match j with
  | .jobj o =>
      match parseAnyString "summary" (getField o "summary"),
        parsePathways (getField o "pathways") with
      | .ok summary, .ok pathways => .ok { summary, pathways }
      | a, b => .error (errsOf a ++ errsOf b)
  | _ => .error ["Expected object"]

/-! ## Real Mode provider (realProvider.ts) -/

/-- A content block of the remote service's message, as inspected by
`analyzeRealMode` (`block.type === 'tool_use' && block.name === ...`). -/
inductive MsgBlock where
  | toolUse (name : String) (input : JVal)
  | text (text : String)

/-- The tail of `analyzeRealMode` from realProvider.ts, with the remote
message's `content` made explicit: find the `emit_analysis` tool-use
block (throwing when absent) and validate its input with
`AnalysisResultSchema.parse` before returning it. -/
def analyzeRealMode (content : List MsgBlock) : Except (List String) AnalysisResult :=
  match content.find? (fun b => match b with
      | .toolUse n _ => n == "emit_analysis"
      | _ => false) with
  | some (.toolUse _ input) => analysisResultParse input
  | _ => .error ["No tool use found in Claude response"]

/-! ## Spec-side definitions

These follow the specification's words (not the source) and are compared
with the source-derived definitions above. -/

/-- Spec §4.2's description of one hash step: `hash = hash*31 + charCode`,
wrapped to a 32-bit signed integer. -/
def specHashStep (h : Int) (c : Nat) : Int :=
  toInt32 (31 * h + c)

/-- Spec §4.2's hash: fold the `*31` step over the characters, then take
the absolute value. -/
def specRollingHash (s : String) : Nat :=
  ((charCodes s).foldl specHashStep 0).natAbs

/-- Spec §8's shape invariant: exactly 3 pathways and the set of `type`
values is exactly the three strategy tags. -/
def shapeInvariant (r : AnalysisResult) : Bool :=
  r.pathways.length == 3 &&
    (["fast-income", "balanced", "max-upside"].all fun t =>
      (r.pathways.map (fun pw => pw.type)).contains t) &&
    ((r.pathways.map (fun pw => pw.type)).all fun t =>
      ["fast-income", "balanced", "max-upside"].contains t)

/-! ## Basic lemmas -/

theorem toInt32_emod (n : Int) : toInt32 n % 4294967296 = n % 4294967296 := by
  unfold toInt32
  dsimp only
  split <;> omega

theorem toInt32_congr {a b : Int} (h : a % 4294967296 = b % 4294967296) :
    toInt32 a = toInt32 b := by
  unfold toInt32
  rw [h]

/-- The loop body of `simpleHash` computes exactly the spec's
`hash*31 + charCode` step, wrapped to int32. -/
theorem hashStep_eq_spec (h : Int) (c : Nat) : hashStep h c = specHashStep h c := by
  unfold hashStep specHashStep
  apply toInt32_congr
  have h1 := toInt32_emod (h * 32)
  omega

theorem foldl_hashStep_eq (l : List Nat) :
    ∀ a : Int, l.foldl hashStep a = l.foldl specHashStep a := by
  induction l with
  | nil => intro a; rfl
  | cons c t ih => intro a; simp only [List.foldl, hashStep_eq_spec, ih]

theorem simpleHash_eq_spec (s : String) : simpleHash s = specRollingHash s := by
  unfold simpleHash specRollingHash
  rw [foldl_hashStep_eq]

theorem PATHWAY_TEMPLATES_length : PATHWAY_TEMPLATES.length = 5 := rfl

theorem templateIndexOf_lt (p : VeteranProfile) :
    templateIndexOf p < PATHWAY_TEMPLATES.length :=
  Nat.mod_lt _ (by rw [PATHWAY_TEMPLATES_length]; omega)

theorem analyzeDemoMode_pathways (p : VeteranProfile) :
    (analyzeDemoMode p).pathways =
      [ generateFastIncome p (selectedTemplate p) p.willingToRelocate
      , generateBalanced p (selectedTemplate p) (hasHighEducationInterest p)
      , generateMaxUpside p (selectedTemplate p) (hasHighEducationInterest p)
          p.yearsOfService ] := rfl

theorem analyzeDemoMode_types (p : VeteranProfile) :
    (analyzeDemoMode p).pathways.map (fun pw => pw.type) =
      ["fast-income", "balanced", "max-upside"] := rfl

theorem shapeInvariant_demo (p : VeteranProfile) :
    shapeInvariant (analyzeDemoMode p) = true := rfl

/-! ## Claim C1 — fallback correctness -/

/-- C1: with the API credential present and the remote provider throwing
(an `Error` object or any non-Error value), `analyzeProfile` returns the
Demo Mode result for the profile (satisfying the shape invariant), no
exception escapes (the controller is a total function into results), and
a single warning is logged whose reason fields are the error's message
and name for Error objects, or "Unknown error"/"Unknown" otherwise. -/
theorem claim_C1_fallback (p : VeteranProfile) (m n : String) :
    analyzeProfile true (.thrown (.errorObj m n)) p =
      (analyzeDemoMode p,
        [{ message := "Real mode failed, falling back to demo mode",
           error := m, errorType := n }]) ∧
    analyzeProfile true (.thrown .nonError) p =
      (analyzeDemoMode p,
        [{ message := "Real mode failed, falling back to demo mode",
           error := "Unknown error", errorType := "Unknown" }]) ∧
    shapeInvariant (analyzeProfile true (.thrown (.errorObj m n)) p).1 = true ∧
    shapeInvariant (analyzeProfile true (.thrown .nonError) p).1 = true :=
  ⟨rfl, rfl, shapeInvariant_demo p, shapeInvariant_demo p⟩

/-! ## Claim C3 — determinism of Demo Mode -/

/-- C3: Demo Mode is deterministic — field-for-field equal profiles give
the same template index and a field-for-field identical result — and an
empty `technicalSkills` list is valid input whose hash input degenerates
to `mos ++ branch` (the empty-string contribution). -/
theorem claim_C3_determinism (p1 p2 : VeteranProfile) (h : p1 = p2) :
    templateIndexOf p1 = templateIndexOf p2 ∧
    analyzeDemoMode p1 = analyzeDemoMode p2 ∧
    (p1.technicalSkills = [] → hashInputOf p1 = p1.mos ++ p1.branch) := by
  subst h
  refine ⟨rfl, rfl, fun he => ?_⟩
  unfold hashInputOf
  rw [he]
  show p1.mos ++ p1.branch ++ "" = p1.mos ++ p1.branch
  exact String.append_empty _

/-- A concrete profile with an empty skills list. -/
def exProfileC3 : VeteranProfile :=
  { branch := "Army", yearsOfService := 4, rank := "E-4", mos := "25B"
    technicalSkills := [], certifications := []
    leadershipExperience := "Team lead for network operations"
    familyStatus := "Single", dependents := 0, spouseEmployment := "N/A"
    currentLocation := "Fort Hood, TX", willingToRelocate := true
    preferredLocations := [], careerGoals := "IT career in civilian sector"
    incomeExpectations := "$60,000+"
    educationInterest := "Certifications (CompTIA, Cisco)"
    timeline := "3-6 months" }

theorem claim_C3_witness :
    templateIndexOf exProfileC3 = templateIndexOf exProfileC3 ∧
    analyzeDemoMode exProfileC3 = analyzeDemoMode exProfileC3 ∧
    hashInputOf exProfileC3 = exProfileC3.mos ++ exProfileC3.branch := by
  have h := claim_C3_determinism exProfileC3 exProfileC3 rfl
  exact ⟨h.1, h.2.1, h.2.2 rfl⟩

/-! ## Claim C5 — the hash algorithm and template-index range -/

/-- C5: the hash computed over `mos ++ branch ++ join(technicalSkills)`
is the classic polynomial rolling hash `h*31 + charCode` wrapped to a
32-bit signed integer (the source's `(h << 5) - h` form is equal step by
step), followed by absolute value; the index reduces it modulo the
number of templates (5) and is therefore always in range. -/
theorem claim_C5_hash :
    (∀ s : String, simpleHash s = specRollingHash s) ∧
    PATHWAY_TEMPLATES.length = 5 ∧
    (∀ p : VeteranProfile,
      templateIndexOf p =
        simpleHash (p.mos ++ p.branch ++ String.join p.technicalSkills) %
          PATHWAY_TEMPLATES.length ∧
      templateIndexOf p < PATHWAY_TEMPLATES.length) :=
  ⟨simpleHash_eq_spec, PATHWAY_TEMPLATES_length,
    fun p => ⟨rfl, templateIndexOf_lt p⟩⟩

/-! ## Claim C6 — balanced-pathway education bonus -/

/-- C6: in the demo result the balanced pathway (position 1) gets a
+10000 bonus on the template's base starting salary exactly when the
lower-cased `educationInterest` contains "bachelor" or "master", and
exactly then one synthetic credential is appended after the template's
credential list; otherwise the credential list is the template's list
unchanged. -/
theorem claim_C6_educationBonus (p : VeteranProfile) :
    (analyzeDemoMode p).pathways =
      [ generateFastIncome p (selectedTemplate p) p.willingToRelocate
      , generateBalanced p (selectedTemplate p) (hasHighEducationInterest p)
      , generateMaxUpside p (selectedTemplate p) (hasHighEducationInterest p)
          p.yearsOfService ] ∧
    hasHighEducationInterest p =
      (containsSub (jsToLower p.educationInterest) "bachelor" ||
        containsSub (jsToLower p.educationInterest) "master") ∧
    (∀ (t : PathwayTemplate) (flag : Bool),
      (generateBalanced p t flag).requiredCredentials =
        (if flag then t.balanced.credentials ++ [bonusCredential]
         else t.balanced.credentials) ∧
      (generateBalanced p t flag).incomeTrajectory.year1 =
        fmtRange (t.balanced.startingSalary + (if flag then 10000 else 0))
          (t.balanced.startingSalary + (if flag then 10000 else 0) + 12000)) :=
  ⟨rfl, rfl, fun _ flag => by cases flag <;> exact ⟨rfl, rfl⟩⟩

/-! ## Claim C7 — max-upside experience tiering -/

/-- C7: the max-upside bonus is a pure tier of `yearsOfService` —
+15000 for ≥ 8, +8000 for 4 ≤ y < 8, else 0 — taking the claimed values
at 0, 3, 4, 7, 8, 12, and the max-upside pathway's year-1 range starts
at the template's base salary plus that bonus. -/
theorem claim_C7_experienceTier :
    (∀ y : ℚ, 8 ≤ y → experienceBonusOf y = 15000) ∧
    (∀ y : ℚ, 4 ≤ y → y < 8 → experienceBonusOf y = 8000) ∧
    (∀ y : ℚ, y < 4 → experienceBonusOf y = 0) ∧
    experienceBonusOf 0 = 0 ∧ experienceBonusOf 3 = 0 ∧
    experienceBonusOf 4 = 8000 ∧ experienceBonusOf 7 = 8000 ∧
    experienceBonusOf 8 = 15000 ∧ experienceBonusOf 12 = 15000 ∧
    (∀ (p : VeteranProfile) (t : PathwayTemplate) (flag : Bool) (y : ℚ),
      (generateMaxUpside p t flag y).incomeTrajectory.year1 =
        fmtRange (t.maxUpside.startingSalary + experienceBonusOf y)
          (t.maxUpside.startingSalary + experienceBonusOf y + 15000)) := by
  refine ⟨?_, ?_, ?_, ?_, ?_, ?_, ?_, ?_, ?_, fun p t flag y => rfl⟩
  · intro y hy
    unfold experienceBonusOf
    rw [if_pos hy]
  · intro y hy1 hy2
    unfold experienceBonusOf
    rw [if_neg (by linarith), if_pos hy1]
  · intro y hy
    unfold experienceBonusOf
    rw [if_neg (by linarith), if_neg (by linarith)]
  all_goals norm_num [experienceBonusOf]

theorem claim_C7_witness :
    experienceBonusOf 12 = 15000 ∧ experienceBonusOf 5 = 8000 ∧
    experienceBonusOf 2 = 0 :=
  ⟨claim_C7_experienceTier.1 12 (by norm_num),
    claim_C7_experienceTier.2.1 5 (by norm_num) (by norm_num),
    claim_C7_experienceTier.2.2.1 2 (by norm_num)⟩

/-! ## Claim C8 — relocation sensitivity of the fast-income pathway -/

/-- C8: the fast-income base is the template's starting salary plus
15000 exactly when `willingToRelocate`, so the year-1 numeric lower
bound with relocation is exactly 15000 above the one without (template
selection ignores the flag), and the three year ranges are
`[base, base+10000]`, `[base+15000, base+25000]`,
`[base+30000, base+45000]`. -/
theorem claim_C8_relocation (p : VeteranProfile) :
    selectedTemplate { p with willingToRelocate := true } =
      selectedTemplate { p with willingToRelocate := false } ∧
    fastIncomeBaseIncome (selectedTemplate { p with willingToRelocate := true }) true =
      fastIncomeBaseIncome (selectedTemplate { p with willingToRelocate := false }) false
        + 15000 ∧
    (∀ (t : PathwayTemplate) (b : Bool),
      fastIncomeBaseIncome t b =
        t.fastIncome.startingSalary + (if b then 15000 else 0) ∧
      (generateFastIncome p t b).incomeTrajectory =
        { year1 := fmtRange (fastIncomeBaseIncome t b) (fastIncomeBaseIncome t b + 10000)
          year3 := fmtRange (fastIncomeBaseIncome t b + 15000)
            (fastIncomeBaseIncome t b + 25000)
          year5 := fmtRange (fastIncomeBaseIncome t b + 30000)
            (fastIncomeBaseIncome t b + 45000) }) := by
  refine ⟨rfl, ?_, fun t b => ⟨rfl, rfl⟩⟩
  have ht : selectedTemplate { p with willingToRelocate := true } =
      selectedTemplate { p with willingToRelocate := false } := rfl
  rw [ht]
  unfold fastIncomeBaseIncome
  simp

/-! ## Claim C10 — selection depends on skills only through concatenation -/

/-- Out-of-range default pathway for `List.getD` (never reached on the
3-element pathway lists). -/
def emptyPathway : CareerPathway :=
  { type := "", title := "", description := ""
    incomeTrajectory := { year1 := "", year3 := "", year5 := "" }
    roadmap := [], requiredCredentials := []
    familyImpact := { timeCommitment := "", flexibility := "", stability := "", notes := "" }
    whyThisPath := "" }

/-- C10 (amended): profiles with the same `mos` and `branch` whose
skills lists concatenate to the same string select the same template, so
the titles, descriptions and roadmaps of all three pathways coincide,
and so do the credentials of the fast-income and max-upside pathways;
the balanced pathway's credentials additionally coincide whenever the
education-bonus condition agrees between the two profiles. -/
theorem claim_C10_amended (p q : VeteranProfile)
    (hm : p.mos = q.mos) (hb : p.branch = q.branch)
    (hs : String.join p.technicalSkills = String.join q.technicalSkills) :
    templateIndexOf p = templateIndexOf q ∧
    selectedTemplate p = selectedTemplate q ∧
    (analyzeDemoMode p).pathways.map (fun pw => pw.title) =
      (analyzeDemoMode q).pathways.map (fun pw => pw.title) ∧
    (analyzeDemoMode p).pathways.map (fun pw => pw.description) =
      (analyzeDemoMode q).pathways.map (fun pw => pw.description) ∧
    (analyzeDemoMode p).pathways.map (fun pw => pw.roadmap) =
      (analyzeDemoMode q).pathways.map (fun pw => pw.roadmap) ∧
    ((analyzeDemoMode p).pathways.getD 0 emptyPathway).requiredCredentials =
      ((analyzeDemoMode q).pathways.getD 0 emptyPathway).requiredCredentials ∧
    ((analyzeDemoMode p).pathways.getD 2 emptyPathway).requiredCredentials =
      ((analyzeDemoMode q).pathways.getD 2 emptyPathway).requiredCredentials ∧
    (hasHighEducationInterest p = hasHighEducationInterest q →
      (analyzeDemoMode p).pathways.map (fun pw => pw.requiredCredentials) =
        (analyzeDemoMode q).pathways.map (fun pw => pw.requiredCredentials)) := by
  have hidx : templateIndexOf p = templateIndexOf q := by
    unfold templateIndexOf hashInputOf
    rw [hm, hb, hs]
  have htem : selectedTemplate p = selectedTemplate q := by
    unfold selectedTemplate
    rw [hidx]
  have eTitle : ∀ r : VeteranProfile,
      (analyzeDemoMode r).pathways.map (fun pw => pw.title) =
        [(selectedTemplate r).fastIncome.title, (selectedTemplate r).balanced.title,
          (selectedTemplate r).maxUpside.title] := fun _ => rfl
  have eDesc : ∀ r : VeteranProfile,
      (analyzeDemoMode r).pathways.map (fun pw => pw.description) =
        [(selectedTemplate r).fastIncome.description,
          (selectedTemplate r).balanced.description,
          (selectedTemplate r).maxUpside.description] := fun _ => rfl
  have eRoad : ∀ r : VeteranProfile,
      (analyzeDemoMode r).pathways.map (fun pw => pw.roadmap) =
        [(selectedTemplate r).fastIncome.roadmap, (selectedTemplate r).balanced.roadmap,
          (selectedTemplate r).maxUpside.roadmap] := fun _ => rfl
  have eCred : ∀ r : VeteranProfile,
      (analyzeDemoMode r).pathways.map (fun pw => pw.requiredCredentials) =
        [(selectedTemplate r).fastIncome.credentials,
          if hasHighEducationInterest r then
            (selectedTemplate r).balanced.credentials ++ [bonusCredential]
          else (selectedTemplate r).balanced.credentials,
          (selectedTemplate r).maxUpside.credentials] := fun _ => rfl
  refine ⟨hidx, htem, ?_, ?_, ?_, ?_, ?_, fun hedu => ?_⟩
  · rw [eTitle p, eTitle q, htem]
  · rw [eDesc p, eDesc q, htem]
  · rw [eRoad p, eRoad q, htem]
  · show (selectedTemplate p).fastIncome.credentials =
      (selectedTemplate q).fastIncome.credentials
    rw [htem]
  · show (selectedTemplate p).maxUpside.credentials =
      (selectedTemplate q).maxUpside.credentials
    rw [htem]
  · rw [eCred p, eCred q, htem, hedu]

/-- The credentials of the three demo pathways, exposed through the
selected template and the education flag. -/
theorem demo_creds_map (p : VeteranProfile) :
    (analyzeDemoMode p).pathways.map (fun pw => pw.requiredCredentials) =
      [ (selectedTemplate p).fastIncome.credentials
      , if hasHighEducationInterest p then
          (selectedTemplate p).balanced.credentials ++ [bonusCredential]
        else (selectedTemplate p).balanced.credentials
      , (selectedTemplate p).maxUpside.credentials ] := rfl

/-- Profile with skills `["ab", "c"]` and a "bachelor" education text. -/
def exProfileC10a : VeteranProfile :=
  { exProfileC3 with
      mos := "11B"
      technicalSkills := ["ab", "c"]
      educationInterest := "bachelor" }

/-- Same `mos`/`branch` and skills concatenation as `exProfileC10a`, but
an education text without "bachelor"/"master". -/
def exProfileC10b : VeteranProfile :=
  { exProfileC3 with
      mos := "11B"
      technicalSkills := ["a", "bc"]
      educationInterest := "no plans" }

/-- C10 as stated is false: these two profiles share `mos`, `branch` and
the skills concatenation, yet the credentials of their pathways differ
(the balanced pathway's list depends on `educationInterest` too). -/
theorem claim_C10_counterexample :
    exProfileC10a.mos = exProfileC10b.mos ∧
    exProfileC10a.branch = exProfileC10b.branch ∧
    String.join exProfileC10a.technicalSkills =
      String.join exProfileC10b.technicalSkills ∧
    ¬ ((analyzeDemoMode exProfileC10a).pathways.map (fun pw => pw.requiredCredentials) =
        (analyzeDemoMode exProfileC10b).pathways.map (fun pw => pw.requiredCredentials)) := by
  refine ⟨rfl, rfl, rfl, fun hEq => ?_⟩
  have ea := demo_creds_map exProfileC10a
  have eb := demo_creds_map exProfileC10b
  have hfa : hasHighEducationInterest exProfileC10a = true := rfl
  have hfb : hasHighEducationInterest exProfileC10b = false := rfl
  have hts : selectedTemplate exProfileC10a = selectedTemplate exProfileC10b := rfl
  rw [ea, eb, hfa, hfb, hts] at hEq
  simp at hEq

/-- Profiles differing only by the boundaries inside `technicalSkills`. -/
def exProfileC10c : VeteranProfile :=
  { exProfileC3 with
      mos := "11B"
      technicalSkills := ["ab", "c"] }

/-- Companion of `exProfileC10c` with skills `["a", "bc"]`. -/
def exProfileC10d : VeteranProfile :=
  { exProfileC3 with
      mos := "11B"
      technicalSkills := ["a", "bc"] }

theorem claim_C10_witness :
    templateIndexOf exProfileC10c = templateIndexOf exProfileC10d ∧
    selectedTemplate exProfileC10c = selectedTemplate exProfileC10d ∧
    (analyzeDemoMode exProfileC10c).pathways.map (fun pw => pw.title) =
      (analyzeDemoMode exProfileC10d).pathways.map (fun pw => pw.title) ∧
    (analyzeDemoMode exProfileC10c).pathways.map (fun pw => pw.description) =
      (analyzeDemoMode exProfileC10d).pathways.map (fun pw => pw.description) ∧
    (analyzeDemoMode exProfileC10c).pathways.map (fun pw => pw.roadmap) =
      (analyzeDemoMode exProfileC10d).pathways.map (fun pw => pw.roadmap) ∧
    (analyzeDemoMode exProfileC10c).pathways.map (fun pw => pw.requiredCredentials) =
      (analyzeDemoMode exProfileC10d).pathways.map (fun pw => pw.requiredCredentials) := by
  have h := claim_C10_amended exProfileC10c exProfileC10d rfl rfl (by rfl)
  exact ⟨h.1, h.2.1, h.2.2.1, h.2.2.2.1, h.2.2.2.2.1, h.2.2.2.2.2.2.2 rfl⟩

/-! ## Lemmas about the zod validators -/

theorem parseEnumType_ok {v : Option JVal} {t : String}
    (h : parseEnumType v = .ok t) :
    t = "fast-income" ∨ t = "balanced" ∨ t = "max-upside" := by
  unfold parseEnumType at h
  split at h
  · exact absurd h (by simp)
  · split at h
    · rename_i s _ hcond
      injection h with h
      subst h
      simp at hcond
      tauto
    · exact absurd h (by simp)
  · exact absurd h (by simp)

theorem careerPathwayParse_ok {j : JVal} {pw : CareerPathway}
    (h : careerPathwayParse j = .ok pw) :
    pw.type = "fast-income" ∨ pw.type = "balanced" ∨ pw.type = "max-upside" := by
  unfold careerPathwayParse at h
  split at h
  · split at h
    · rename_i heq _ _ _ _ _ _ _
      injection h with h
      subst h
      exact parseEnumType_ok heq
    · exact absurd h (by simp)
  · exact absurd h (by simp)

theorem collectMapE_ok_forall {α β : Type} {f : α → Except (List String) β}
    {xs : List α} {ys : List β} (h : collectMapE f xs = .ok ys)
    (P : β → Prop) (hf : ∀ x y, f x = .ok y → P y) :
    ∀ y ∈ ys, P y := by
  induction xs generalizing ys with
  | nil =>
      unfold collectMapE at h
      injection h with h
      subst h
      intro y hy
      exact absurd hy (by simp)
  | cons x t ih =>
      unfold collectMapE at h
      split at h
      · rename_i b bs heq1 heq2
        injection h with h
        subst h
        intro y hy
        rcases List.mem_cons.mp hy with hy | hy
        · exact hy ▸ hf x b heq1
        · exact ih heq2 y hy
      · exact absurd h (by simp)
      · exact absurd h (by simp)
      · exact absurd h (by simp)

theorem parsePathways_ok {v : Option JVal} {ps : List CareerPathway}
    (h : parsePathways v = .ok ps) :
    ps.length = 3 ∧
      ∀ pw ∈ ps,
        pw.type = "fast-income" ∨ pw.type = "balanced" ∨ pw.type = "max-upside" := by
  unfold parsePathways at h
  split at h
  · exact absurd h (by simp)
  · split at h
    · split at h
      · rename_i heq hlen
        injection h with h
        subst h
        exact ⟨hlen, collectMapE_ok_forall heq _ (fun x y hxy => careerPathwayParse_ok hxy)⟩
      · exact absurd h (by simp)
    · split at h <;> exact absurd h (by simp)
  · exact absurd h (by simp)

theorem analysisResultParse_ok {j : JVal} {r : AnalysisResult}
    (h : analysisResultParse j = .ok r) :
    r.pathways.length = 3 ∧
      ∀ pw ∈ r.pathways,
        pw.type = "fast-income" ∨ pw.type = "balanced" ∨ pw.type = "max-upside" := by
  unfold analysisResultParse at h
  split at h
  · split at h
    · rename_i heq1 heq2
      injection h with h
      subst h
      exact parsePathways_ok heq2
    · exact absurd h (by simp)
  · exact absurd h (by simp)

theorem analyzeRealMode_ok {content : List MsgBlock} {r : AnalysisResult}
    (h : analyzeRealMode content = .ok r) :
    r.pathways.length = 3 ∧
      ∀ pw ∈ r.pathways,
        pw.type = "fast-income" ∨ pw.type = "balanced" ∨ pw.type = "max-upside" := by
  unfold analyzeRealMode at h
  split at h
  · exact analysisResultParse_ok h
  · exact absurd h (by simp)

theorem parseNonEmptyString_ok {f m : String} {v : Option JVal} {s : String}
    (h : parseNonEmptyString f m v = .ok s) : s ≠ "" := by
  unfold parseNonEmptyString at h
  split at h
  · exact absurd h (by simp)
  · split at h
    · exact absurd h (by simp)
    · rename_i hne
      injection h with h
      subst h
      exact hne
  · exact absurd h (by simp)

theorem parseMinZeroNumber_ok {f m : String} {v : Option JVal} {q : ℚ}
    (h : parseMinZeroNumber f m v = .ok q) : 0 ≤ q := by
  unfold parseMinZeroNumber at h
  split at h
  · exact absurd h (by simp)
  · split at h
    · exact absurd h (by simp)
    · rename_i hge
      injection h with h
      subst h
      linarith
  · exact absurd h (by simp)

theorem veteranProfileParse_ok {j : JVal} {p : VeteranProfile}
    (h : veteranProfileParse j = .ok p) :
    p.branch ≠ "" ∧ p.rank ≠ "" ∧ p.mos ≠ "" ∧ p.familyStatus ≠ "" ∧
      p.currentLocation ≠ "" ∧ p.careerGoals ≠ "" ∧ p.incomeExpectations ≠ "" ∧
      p.educationInterest ≠ "" ∧ p.timeline ≠ "" ∧
      0 ≤ p.yearsOfService ∧ 0 ≤ p.dependents := by
  unfold veteranProfileParse at h
  split at h
  · split at h
    · rename_i e1 e2 e3 e4 e5 e6 e7 e8 e9 e10 e11 e12 e13 e14 e15 e16 e17
      injection h with h
      subst h
      exact ⟨parseNonEmptyString_ok e1, parseNonEmptyString_ok e3,
        parseNonEmptyString_ok e4, parseNonEmptyString_ok e8,
        parseNonEmptyString_ok e11, parseNonEmptyString_ok e14,
        parseNonEmptyString_ok e15, parseNonEmptyString_ok e16,
        parseNonEmptyString_ok e17, parseMinZeroNumber_ok e2,
        parseMinZeroNumber_ok e9⟩
    · exact absurd h (by simp)
  · exact absurd h (by simp)

theorem veteranProfileParse_error {o : List (String × JVal)} {l : List String}
    (h : veteranProfileParse (.jobj o) = .error l) :
    l = (profileFieldIssues o).flatten ∧
      ∀ xs ∈ profileFieldIssues o, ∀ e ∈ xs, e ∈ l := by
  unfold veteranProfileParse at h
  split at h
  · rename_i o2 heq
    injection heq with heq
    subst heq
    split at h
    · exact absurd h (by simp)
    · injection h with h
      subst h
      exact ⟨rfl, fun xs hxs e he => List.mem_flatten.mpr ⟨xs, hxs, he⟩⟩
  · rename_i j hcontra
    exact (hcontra o rfl).elim

/-! ## Concrete payloads for the validator claims -/

/-- A minimal schema-conforming pathway payload with the given type tag
(empty `roadmap`/`requiredCredentials` arrays are accepted by the
schema). -/
def pwJson (t : String) : JVal :=
  .jobj
    [ ("type", .jstr t), ("title", .jstr "T"), ("description", .jstr "D")
    , ("incomeTrajectory",
        .jobj [("year1", .jstr "$1"), ("year3", .jstr "$2"), ("year5", .jstr "$3")])
    , ("roadmap", .jarr []), ("requiredCredentials", .jarr [])
    , ("familyImpact",
        .jobj [("timeCommitment", .jstr "L"), ("flexibility", .jstr "F"),
          ("stability", .jstr "S"), ("notes", .jstr "N")])
    , ("whyThisPath", .jstr "W") ]

/-- The parsed form of `pwJson t`. -/
def pwParsed (t : String) : CareerPathway :=
  { type := t, title := "T", description := "D"
    incomeTrajectory := { year1 := "$1", year3 := "$2", year5 := "$3" }
    roadmap := [], requiredCredentials := []
    familyImpact := { timeCommitment := "L", flexibility := "F", stability := "S", notes := "N" }
    whyThisPath := "W" }

/-- A result payload whose 3 pathways all carry the same type tag. -/
def dupResultJson : JVal :=
  .jobj
    [ ("summary", .jstr "S")
    , ("pathways",
        .jarr [pwJson "fast-income", pwJson "fast-income", pwJson "fast-income"]) ]

/-- The parsed form of `dupResultJson`. -/
def dupResult : AnalysisResult :=
  { summary := "S"
    pathways := [pwParsed "fast-income", pwParsed "fast-income", pwParsed "fast-income"] }

/-- A result payload with the three distinct type tags. -/
def goodResultJson : JVal :=
  .jobj
    [ ("summary", .jstr "S")
    , ("pathways", .jarr [pwJson "fast-income", pwJson "balanced", pwJson "max-upside"]) ]

/-- The parsed form of `goodResultJson`. -/
def goodResult : AnalysisResult :=
  { summary := "S"
    pathways := [pwParsed "fast-income", pwParsed "balanced", pwParsed "max-upside"] }

/-! ## Claim C2 — shape invariant of the two providers -/

/-- C2 as stated is false for the real-mode half: a remote payload whose
3 pathways all carry the tag "fast-income" passes the schema validation
and is returned by `analyzeRealMode`, yet its set of type values is not
`{fast-income, balanced, max-upside}`. -/
theorem claim_C2_counterexample :
    analyzeRealMode [MsgBlock.toolUse "emit_analysis" dupResultJson] = .ok dupResult ∧
    dupResult.pathways.map (fun pw => pw.type) =
      ["fast-income", "fast-income", "fast-income"] ∧
    shapeInvariant dupResult = false :=
  ⟨rfl, rfl, rfl⟩

/-- C2 (amended): in demo mode every valid profile yields exactly the 3
pathways in the fixed order fast-income, balanced, max-upside (hence the
type set is exactly the three tags); in real mode the schema-validated
remote result always has exactly 3 pathways whose type tags each belong
to the three-tag enum, but the set need not be all three (duplicates
pass, see the counterexample). -/
theorem claim_C2_amended :
    (∀ p : VeteranProfile,
      (analyzeDemoMode p).pathways.map (fun pw => pw.type) =
        ["fast-income", "balanced", "max-upside"] ∧
      shapeInvariant (analyzeDemoMode p) = true) ∧
    (∀ (content : List MsgBlock) (r : AnalysisResult),
      analyzeRealMode content = .ok r →
        r.pathways.length = 3 ∧
        ∀ pw ∈ r.pathways,
          pw.type = "fast-income" ∨ pw.type = "balanced" ∨ pw.type = "max-upside") :=
  ⟨fun p => ⟨analyzeDemoMode_types p, shapeInvariant_demo p⟩,
    fun _ _ h => analyzeRealMode_ok h⟩

theorem claim_C2_witness :
    ((analyzeDemoMode exProfileC3).pathways.map (fun pw => pw.type) =
        ["fast-income", "balanced", "max-upside"] ∧
      shapeInvariant (analyzeDemoMode exProfileC3) = true) ∧
    (goodResult.pathways.length = 3 ∧
      ∀ pw ∈ goodResult.pathways,
        pw.type = "fast-income" ∨ pw.type = "balanced" ∨ pw.type = "max-upside") :=
  ⟨claim_C2_amended.1 exProfileC3,
    claim_C2_amended.2 [MsgBlock.toolUse "emit_analysis" goodResultJson] goodResult rfl⟩

/-! ## Claim C4 — the result validator -/

/-- C4 as stated is false: a result whose 3 pathways carry duplicate
type tags passes `AnalysisResultSchema.parse` (the enum constrains each
tag individually; nothing checks distinctness). -/
theorem claim_C4_counterexample :
    analysisResultParse dupResultJson = .ok dupResult ∧
    dupResult.pathways.map (fun pw => pw.type) =
      ["fast-income", "fast-income", "fast-income"] ∧
    shapeInvariant dupResult = false :=
  ⟨rfl, rfl, rfl⟩

/-- C4 (amended): every result accepted by the validator has exactly 3
pathways, each with a type tag from the fixed enum and all nested
objects present (by construction of the parsed value), and every result
the real provider returns has passed the validator; duplicate type tags
are not rejected, and the demo/fallback output is returned without
being run through this validation. -/
theorem claim_C4_validator :
    (∀ (j : JVal) (r : AnalysisResult),
      analysisResultParse j = .ok r →
        r.pathways.length = 3 ∧
        ∀ pw ∈ r.pathways,
          pw.type = "fast-income" ∨ pw.type = "balanced" ∨ pw.type = "max-upside") ∧
    (∀ (content : List MsgBlock) (r : AnalysisResult),
      analyzeRealMode content = .ok r →
        ∃ input : JVal, analysisResultParse input = .ok r) := by
  refine ⟨fun _ _ h => analysisResultParse_ok h, fun content r h => ?_⟩
  unfold analyzeRealMode at h
  split at h
  · rename_i blockName input heq
    exact ⟨input, h⟩
  · exact absurd h (by simp)

theorem claim_C4_witness :
    (goodResult.pathways.length = 3 ∧
      ∀ pw ∈ goodResult.pathways,
        pw.type = "fast-income" ∨ pw.type = "balanced" ∨ pw.type = "max-upside") ∧
    (∃ input : JVal, analysisResultParse input = .ok goodResult) :=
  ⟨claim_C4_validator.1 goodResultJson goodResult rfl,
    claim_C4_validator.2 [MsgBlock.toolUse "emit_analysis" goodResultJson] goodResult rfl⟩

/-! ## Claim C9 — the profile validator -/

/-- A raw profile that is fully valid except that
`leadershipExperience` is the empty string. -/
def rawEmptyLeadership : JVal :=
  .jobj
    [ ("branch", .jstr "Army"), ("yearsOfService", .jnum 6), ("rank", .jstr "E-5")
    , ("mos", .jstr "11B")
    , ("technicalSkills", .jarr [.jstr "Leadership", .jstr "Firearms"])
    , ("certifications", .jarr [.jstr "CPR"])
    , ("leadershipExperience", .jstr "")
    , ("familyStatus", .jstr "Married"), ("dependents", .jnum 2)
    , ("spouseEmployment", .jstr "Full-time")
    , ("currentLocation", .jstr "Fort Bragg, NC"), ("willingToRelocate", .jbool true)
    , ("preferredLocations", .jarr [.jstr "Raleigh, NC"])
    , ("careerGoals", .jstr "Law enforcement")
    , ("incomeExpectations", .jstr "$50,000+")
    , ("educationInterest", .jstr "Associates degree"), ("timeline", .jstr "6 months") ]

/-- The profile produced from `rawEmptyLeadership`. -/
def profEmptyLeadership : VeteranProfile :=
  { branch := "Army", yearsOfService := 6, rank := "E-5", mos := "11B"
    technicalSkills := ["Leadership", "Firearms"], certifications := ["CPR"]
    leadershipExperience := "", familyStatus := "Married", dependents := 2
    spouseEmployment := "Full-time", currentLocation := "Fort Bragg, NC"
    willingToRelocate := true, preferredLocations := ["Raleigh, NC"]
    careerGoals := "Law enforcement", incomeExpectations := "$50,000+"
    educationInterest := "Associates degree", timeline := "6 months" }

/-- The fields of a raw profile in which the three array fields are
absent (and everything else is valid). -/
def rawMissingArraysFields : List (String × JVal) :=
  [ ("branch", .jstr "Army"), ("yearsOfService", .jnum 6), ("rank", .jstr "E-5")
  , ("mos", .jstr "11B")
  , ("leadershipExperience", .jstr "Squad leader for 2 years")
  , ("familyStatus", .jstr "Married"), ("dependents", .jnum 2)
  , ("spouseEmployment", .jstr "Full-time")
  , ("currentLocation", .jstr "Fort Bragg, NC"), ("willingToRelocate", .jbool true)
  , ("careerGoals", .jstr "Law enforcement")
  , ("incomeExpectations", .jstr "$50,000+")
  , ("educationInterest", .jstr "Associates degree"), ("timeline", .jstr "6 months") ]

/-- C9 as stated is false on two counts: an input with an empty (but
present) `leadershipExperience` string validates — so not every required
string field must be non-empty (`z.string()` without `.min(1)`) — and an
input with the array fields absent is rejected with "Required" errors
rather than defaulting them to empty arrays. -/
theorem claim_C9_counterexample :
    veteranProfileParse rawEmptyLeadership = .ok profEmptyLeadership ∧
    profEmptyLeadership.leadershipExperience = "" ∧
    veteranProfileParse (.jobj rawMissingArraysFields) =
      .error ["technicalSkills: Required", "certifications: Required",
        "preferredLocations: Required"] :=
  ⟨rfl, rfl, rfl⟩

/-- C9 (amended): the validator produces a validated profile or fails
with the issues of every offending field (not just the first); the nine
string fields with `.min(1)` are non-empty on success (but
`leadershipExperience` and `spouseEmployment` may be empty), the numeric
fields are ≥ 0, the array fields are required (absent input is an
error, no defaulting) and must be arrays of strings, and the boolean
field is strictly boolean (all by the per-field parsers). -/
theorem claim_C9_validator :
    (∀ (j : JVal) (p : VeteranProfile),
      veteranProfileParse j = .ok p →
        p.branch ≠ "" ∧ p.rank ≠ "" ∧ p.mos ≠ "" ∧ p.familyStatus ≠ "" ∧
        p.currentLocation ≠ "" ∧ p.careerGoals ≠ "" ∧ p.incomeExpectations ≠ "" ∧
        p.educationInterest ≠ "" ∧ p.timeline ≠ "" ∧
        0 ≤ p.yearsOfService ∧ 0 ≤ p.dependents) ∧
    (∀ (o : List (String × JVal)) (l : List String),
      veteranProfileParse (.jobj o) = .error l →
        l = (profileFieldIssues o).flatten ∧
        ∀ xs ∈ profileFieldIssues o, ∀ e ∈ xs, e ∈ l) :=
  ⟨fun _ _ h => veteranProfileParse_ok h, fun _ _ h => veteranProfileParse_error h⟩

theorem claim_C9_witness :
    (profEmptyLeadership.branch ≠ "" ∧ profEmptyLeadership.rank ≠ "" ∧
      profEmptyLeadership.mos ≠ "" ∧ profEmptyLeadership.familyStatus ≠ "" ∧
      profEmptyLeadership.currentLocation ≠ "" ∧
      profEmptyLeadership.careerGoals ≠ "" ∧
      profEmptyLeadership.incomeExpectations ≠ "" ∧
      profEmptyLeadership.educationInterest ≠ "" ∧
      profEmptyLeadership.timeline ≠ "" ∧
      0 ≤ profEmptyLeadership.yearsOfService ∧ 0 ≤ profEmptyLeadership.dependents) ∧
    (["technicalSkills: Required", "certifications: Required",
        "preferredLocations: Required"] =
      (profileFieldIssues rawMissingArraysFields).flatten ∧
      ∀ xs ∈ profileFieldIssues rawMissingArraysFields, ∀ e ∈ xs,
        e ∈ ["technicalSkills: Required", "certifications: Required",
          "preferredLocations: Required"]) :=
  ⟨claim_C9_validator.1 rawEmptyLeadership profEmptyLeadership rfl,
    claim_C9_validator.2 rawMissingArraysFields
      ["technicalSkills: Required", "certifications: Required",
        "preferredLocations: Required"] rfl⟩

end VTN
